import Mathlib

/-
Verification of the surge-ping fork (stormshield-kg), ping session layer.

Shallow embedding of src/ping.rs, src/error.rs and the event loop of
src/main.rs.  The crate modules that are not part of the sources here
(client.rs with the reply map, the icmp codec module, the
is_linux_icmp_socket! macro of lib.rs) are modelled from the spec where a
claim depends on them; each such definition carries a doc comment saying so.

Machine integers are modelled as Nat (u16 values stay below 65536 by
construction), Instant as a Nat timestamp, Duration as a Nat number of
time units (Instant::saturating_duration_since is truncated Nat
subtraction).  Fallible Rust functions return Except SurgeError.  The
socket send and the packet encoders are external effects; they enter the
model as an explicit environment (Env).  Observable actions of a call are
recorded in an event trace (register / deregister on the reply map, the
encoder invocation, the transmit on the socket), so that ordering and
frame claims can be stated.
-/

namespace SurgePing

/-- IP address tagged by family; the numeric field abstracts the address bits. -/
inductive IpAddr : Type
  | V4 (addr : Nat)
  | V6 (addr : Nat)
deriving DecidableEq, Repr

/-- The u16 ping identifier (PingIdentifier in the icmp module). -/
structure PingIdentifier where
  val : Nat
deriving DecidableEq, Repr

/-- PingSequence wraps a NonZeroU16 in the source (see seq.0.get() in
ping.rs and NonZeroU16::new in main.rs): a sequence number is a 16-bit
value in 1..=65535. -/
abbrev PingSequence : Type := { n : Nat // 0 < n ∧ n ≤ 65535 }

/-- Socket kinds distinguished by the identity rule: a privileged raw
socket versus the unprivileged Linux ICMP datagram kind. -/
inductive SocketType : Type
  | raw
  | dgram
deriving DecidableEq, Repr

/-- Modelled from the spec: the is_linux_icmp_socket! macro (lib.rs, not
under src/) reports whether the socket kind is the unprivileged Linux ICMP
datagram kind, which does not support identifier passthrough. -/
def is_linux_icmp_socket (t : SocketType) : Bool :=
  match t with
  | .dgram => true
  | .raw => false

/-- A decoded ICMP packet as handed back to ping_recv; the session layer
never inspects it, so its contents are abstracted to the family tag and an
opaque payload. -/
inductive IcmpPacket : Type
  | V4 (data : Nat)
  | V6 (data : Nat)
deriving DecidableEq, Repr

/-- A reply delivered through the waiter channel: decoded packet plus
arrival timestamp (client.rs Reply). -/
structure Reply where
  packet : IcmpPacket
  timestamp : Nat
deriving DecidableEq, Repr

/-- Structural decode errors (error.rs MalformedPacketError). -/
inductive MalformedPacketError : Type
  | NotIpv4Packet
  | NotIpv6Packet
  | NotIcmpv4Packet
  | NotIcmpv6Packet
  | PayloadTooShort (got : Nat) (want : Nat)
deriving DecidableEq, Repr

/-- The correlation key of the reply map: (destination address, optional
identifier, sequence number). -/
abbrev Key : Type := IpAddr × Option PingIdentifier × PingSequence

/-- The error enum of error.rs.  io::Error is abstracted to its errno. -/
inductive SurgeError : Type
  | IncorrectBufferSize
  | MalformedPacket (e : MalformedPacketError)
  | IOError (errno : Nat)
  | EchoRequestPacket
  | NetworkError
  | IdenticalRequests (host : IpAddr) (ident : Option PingIdentifier) (seq : PingSequence)
  | UnsupportedSeqNum
deriving DecidableEq, Repr

/-- An encoded ICMP echo request as produced by the codec; only the fields
the claims observe are kept. -/
structure EchoPacket where
  ident : PingIdentifier
  seq : PingSequence
  payload : List Nat
deriving DecidableEq, Repr

/-- The reply map is a set of registered correlation keys; the map payload
(the oneshot sender) is irrelevant to the claims, so the map is its key
list.  register refuses duplicates, so a key occurs at most once. -/
abbrev ReplyMap : Type := List Key

/-- The receiver half handed to the registering session, abstracted to the
key identifying its channel. -/
abbrev Receiver : Type := Key

/-- Key membership test of the reply map. -/
def ReplyMap.containsKey (m : ReplyMap) (k : Key) : Bool :=
  decide (k ∈ m)

/-- Modelled from the spec: ReplyMap::new_waiter of client.rs (not under
src/) — register fails with the duplicate-request error naming the key
fields when the key is already present, otherwise inserts the key and
returns the receiver half. -/
def ReplyMap.new_waiter (m : ReplyMap) (host : IpAddr) (ident : Option PingIdentifier)
    (seq : PingSequence) : Except SurgeError (ReplyMap × Receiver) :=
  if m.containsKey (host, ident, seq) then
    .error (.IdenticalRequests host ident seq)
  else
    .ok ((host, ident, seq) :: m, (host, ident, seq))

/-- Modelled from the spec: ReplyMap::remove of client.rs (not under
src/) — removes the key if present, a no-op otherwise. -/
def ReplyMap.remove (m : ReplyMap) (host : IpAddr) (ident : Option PingIdentifier)
    (seq : PingSequence) : ReplyMap :=
  m.filter (fun x => decide (x ≠ (host, ident, seq)))

/-- Observable actions of the session layer, recorded as a trace. -/
inductive Event : Type
  | register (k : Key)
  | deregister (k : Key)
  | encodeCall (ident : PingIdentifier) (seq : PingSequence)
  | transmit (packet : EchoPacket) (dst : IpAddr)
deriving DecidableEq, Repr

/-- The external effects of send_ping: the icmp codec (make_icmpv4/v6
echo packet, module not under src/) and the socket send.  sendTo yields
some errno on an IO failure and none on success. -/
structure Env where
  encodeV4 : PingIdentifier → PingSequence → SocketType → List Nat → Except SurgeError EchoPacket
  encodeV6 : PingIdentifier → PingSequence → List Nat → Except SurgeError EchoPacket
  sendTo : EchoPacket → IpAddr → Option Nat

/-- The Pinger state of ping.rs: destination, resolved identity, socket
kind, and the u16 last-sent sequence (0 = no successful send yet). -/
structure Pinger where
  host : IpAddr
  ident : Option PingIdentifier
  socketType : SocketType
  last_sequence : Nat
deriving DecidableEq, Repr

/-- Pinger::new (ping.rs): the identity is resolved once at construction —
none on the unprivileged Linux ICMP datagram kind, the caller's hint
otherwise; last_sequence starts at 0. -/
def Pinger.new (host : IpAddr) (ident_hint : PingIdentifier) (socketType : SocketType) : Pinger :=
  { host := host
    ident := if is_linux_icmp_socket socketType then none else some ident_hint
    socketType := socketType
    last_sequence := 0 }

/-- The packet-construction match of send_ping (ping.rs lines 98-110):
per address family, the codec is invoked with self.ident.unwrap_or(0),
the sequence and the payload; the v4 encoder also receives the socket
type. -/
def Pinger.encodePacket (env : Env) (p : Pinger) (seq : PingSequence)
    (payload : List Nat) : Except SurgeError EchoPacket :=
  match p.host with
  | .V4 _ => env.encodeV4 (p.ident.getD ⟨0⟩) seq p.socketType payload
  | .V6 _ => env.encodeV6 (p.ident.getD ⟨0⟩) seq payload

/-- Pinger::send_ping (ping.rs): build the packet, then send it to
(host, 0) on the socket; encode and IO errors propagate.  The reply map is
in scope (a field of self) but untouched; it is threaded through to make
that frame property a statement. -/
def Pinger.send_ping (env : Env) (p : Pinger) (m : ReplyMap) (seq : PingSequence)
    (payload : List Nat) : Except SurgeError Unit × ReplyMap × List Event :=
  match Pinger.encodePacket env p seq payload with
  | .error e => (.error e, m, [Event.encodeCall (p.ident.getD ⟨0⟩) seq])
  | .ok packet =>
    match env.sendTo packet p.host with
    | some errno =>
      (.error (.IOError errno), m,
        [Event.encodeCall (p.ident.getD ⟨0⟩) seq, Event.transmit packet p.host])
    | none =>
      (.ok (), m,
        [Event.encodeCall (p.ident.getD ⟨0⟩) seq, Event.transmit packet p.host])

/-- Pinger::ping_send (ping.rs): register the waiter first; on send
failure remove the entry again and surface the error; on success record
the send time, store the sequence into last_sequence and hand back the
receiver.  now is the Instant::now() timestamp taken after the send. -/
def Pinger.ping_send (env : Env) (now : Nat) (p : Pinger) (m : ReplyMap) (seq : PingSequence)
    (payload : List Nat) :
    Except SurgeError (Nat × Receiver) × Pinger × ReplyMap × List Event :=
  match ReplyMap.new_waiter m p.host p.ident seq with
  | .error e => (.error e, p, m, [])
  | .ok (m1, reply_waiter) =>
    match Pinger.send_ping env p m1 seq payload with
    | (.error e, m2, ev) =>
      (.error e, p, ReplyMap.remove m2 p.host p.ident seq,
        Event.register (p.host, p.ident, seq) :: ev ++ [Event.deregister (p.host, p.ident, seq)])
    | (.ok _, m2, ev) =>
      (.ok (now, reply_waiter), { p with last_sequence := seq.val }, m2,
        Event.register (p.host, p.ident, seq) :: ev)

/-- Pinger::ping_recv (ping.rs): await the waiter; a channel closed
without a value (none) becomes NetworkError, a delivered reply yields the
packet and the arrival-minus-send duration, saturating at zero (truncated
Nat subtraction models Instant::saturating_duration_since). -/
def Pinger.ping_recv (send_time : Nat) (reply_waiter : Option Reply) :
    Except SurgeError (IcmpPacket × Nat) :=
  match reply_waiter with
  | none => .error .NetworkError
  | some reply => .ok (reply.packet, reply.timestamp - send_time)

/-- Pinger::ping (ping.rs): ping_send then ping_recv.  recvOutcome is what
the waiter channel eventually yields. -/
def Pinger.ping (env : Env) (now : Nat) (recvOutcome : Option Reply) (p : Pinger)
    (m : ReplyMap) (seq : PingSequence) (payload : List Nat) :
    Except SurgeError (IcmpPacket × Nat) × Pinger × ReplyMap × List Event :=
  match Pinger.ping_send env now p m seq payload with
  | (.error e, p1, m1, ev) => (.error e, p1, m1, ev)
  | (.ok (t, _w), p1, m1, ev) => (Pinger.ping_recv t recvOutcome, p1, m1, ev)

/-- The Drop impl of Pinger (ping.rs): if NonZeroU16::new(last_sequence)
is some sequence, remove the (host, ident, sequence) entry; otherwise do
nothing.  last_sequence is a u16 in the source, so the bound 65535 always
holds there. -/
def Pinger.dropCleanup (p : Pinger) (m : ReplyMap) : ReplyMap :=
  if h : 0 < p.last_sequence ∧ p.last_sequence ≤ 65535 then
    ReplyMap.remove m p.host p.ident ⟨p.last_sequence, h⟩
  else
    m

/-- Modelled from the spec: construction of a PingSequence from a raw
sequence number (the icmp module defining PingSequence and the
UnsupportedSeqNum conversion is not under src/).  Sequence numbers are
restricted to 1..=65535; 0 and out-of-range values are rejected with the
invalid-sequence error. -/
def PingSequence.ofNat? (n : Nat) : Except SurgeError PingSequence :=
  if h : 0 < n ∧ n ≤ 65535 then .ok ⟨n, h⟩ else .error .UnsupportedSeqNum

/-- Calling send with a raw sequence number: convert, then ping_send. -/
def Pinger.ping_send_raw (env : Env) (now : Nat) (p : Pinger) (m : ReplyMap) (n : Nat)
    (payload : List Nat) :
    Except SurgeError (Nat × Receiver) × Pinger × ReplyMap × List Event :=
  match PingSequence.ofNat? n with
  | .error e => (.error e, p, m, [])
  | .ok seq => Pinger.ping_send env now p m seq payload

/-- Calling ping with a raw sequence number: convert, then ping. -/
def Pinger.ping_raw (env : Env) (now : Nat) (recvOutcome : Option Reply) (p : Pinger)
    (m : ReplyMap) (n : Nat) (payload : List Nat) :
    Except SurgeError (IcmpPacket × Nat) × Pinger × ReplyMap × List Event :=
  match PingSequence.ofNat? n with
  | .error e => (.error e, p, m, [])
  | .ok seq => Pinger.ping env now recvOutcome p m seq payload

/-- The per-run statistics record of the CLI front end (main.rs Answer);
the host string is irrelevant to the claims and omitted, durations are in
abstract time units. -/
structure Answer where
  transmitted : Nat
  received : Nat
  durations : List Nat
deriving DecidableEq, Repr

/-- Answer::update (main.rs): a present duration counts as a received
reply and is recorded; an absent one (a per-reply error, counted as a
loss) changes nothing. -/
def Answer.update (a : Answer) (dur : Option Nat) : Answer :=
  match dur with
  | some d => { a with received := a.received + 1, durations := a.durations ++ [d] }
  | none => a

/-- One arm of the select loop of main.rs firing: the global wait-timeout
expiring, send data arriving on the channel (last marks the final ping),
or a reply future resolving. -/
inductive LoopEvent : Type
  | timeout
  | sendData (last : Bool)
  | reply (res : Except SurgeError (IcmpPacket × Nat))
deriving Repr

/-- The mutable state of the select loop of main.rs: the success flag
deciding the exit code, the count of replies still outstanding, the
statistics, and whether the loop has broken out. -/
structure CliState where
  success : Bool
  remaining : Nat
  answer : Answer
  finished : Bool
deriving DecidableEq, Repr

/-- One iteration of the select loop of main.rs (lines 188-233): a
timeout marks the run unsuccessful and breaks; send data only pushes the
reply future (and re-arms the timer, not observed here); an Ok reply
records its duration, an Err reply marks the run unsuccessful and counts
as a loss; the loop breaks once no reply is outstanding. -/
def cliStep (s : CliState) (e : LoopEvent) : CliState :=
  if s.finished then s
  else
    match e with
    | .timeout => { s with success := false, finished := true }
    | .sendData _ => s
    | .reply res =>
      let s1 :=
        match res with
        | .ok (_pkt, dur) => { s with answer := s.answer.update (some dur) }
        | .error _ => { s with success := false, answer := s.answer.update none }
      let s2 := { s1 with remaining := s1.remaining - 1 }
      if s2.remaining = 0 then { s2 with finished := true } else s2

/-- The exit status of main.rs (lines 237-241): 0 (ExitCode::SUCCESS) if
the success flag survived, 1 (ExitCode::FAILURE) otherwise. -/
def exitCode (s : CliState) : Nat :=
  if s.success then 0 else 1

/-- Sample sequence number 1. -/
def seq1 : PingSequence := ⟨1, by decide⟩

/-- Sample sequence number 2. -/
def seq2 : PingSequence := ⟨2, by decide⟩

/-- Sample identifier. -/
def ident0 : PingIdentifier := ⟨4242⟩

/-- Sample destination address. -/
def host0 : IpAddr := .V4 2130706433

/-- Sample environment where encoding and sending always succeed. -/
def envOk : Env :=
  { encodeV4 := fun i s _ pl => .ok { ident := i, seq := s, payload := pl }
    encodeV6 := fun i s pl => .ok { ident := i, seq := s, payload := pl }
    sendTo := fun _ _ => none }

/-- Sample environment where encoding succeeds but every socket send
fails with errno 111. -/
def envSendFail : Env :=
  { encodeV4 := fun i s _ pl => .ok { ident := i, seq := s, payload := pl }
    encodeV6 := fun i s pl => .ok { ident := i, seq := s, payload := pl }
    sendTo := fun _ _ => some 111 }

/-- Sample pinger over a raw socket (identifier kept). -/
def pinger0 : Pinger := Pinger.new host0 ident0 .raw

/-- Sample pinger state with a recorded last-sent sequence. -/
def pinger1 : Pinger := { pinger0 with last_sequence := 7 }

/-- Sample CLI loop state: three replies outstanding, nothing failed yet. -/
def cliState0 : CliState :=
  { success := true, remaining := 3
    answer := { transmitted := 3, received := 0, durations := [] }
    finished := false }

/-! Helper lemmas about the reply map and send_ping. -/

theorem ReplyMap.containsKey_remove_self (m : ReplyMap) (host : IpAddr)
    (ident : Option PingIdentifier) (seq : PingSequence) :
    ReplyMap.containsKey (ReplyMap.remove m host ident seq) (host, ident, seq) = false := by
  simp [ReplyMap.containsKey, ReplyMap.remove, List.mem_filter]

theorem ReplyMap.containsKey_remove_other (m : ReplyMap) (host : IpAddr)
    (ident : Option PingIdentifier) (seq : PingSequence) (k : Key)
    (hk : k ≠ (host, ident, seq)) :
    ReplyMap.containsKey (ReplyMap.remove m host ident seq) k = ReplyMap.containsKey m k := by
  simp [ReplyMap.containsKey, ReplyMap.remove, List.mem_filter, hk]

theorem ReplyMap.remove_cons_self (m : ReplyMap) (host : IpAddr)
    (ident : Option PingIdentifier) (seq : PingSequence)
    (hm : ReplyMap.containsKey m (host, ident, seq) = false) :
    ReplyMap.remove ((host, ident, seq) :: m) host ident seq = m := by
  have hmem : (host, ident, seq) ∉ m := by
    simpa [ReplyMap.containsKey] using hm
  simp only [ReplyMap.remove, List.filter_cons]
  rw [if_neg (by simp)]
  rw [List.filter_eq_self]
  intro a ha
  simp only [ne_eq, decide_eq_true_eq]
  rintro rfl
  exact hmem ha

theorem send_ping_map_eq (env : Env) (p : Pinger) (m : ReplyMap) (seq : PingSequence)
    (payload : List Nat) : (Pinger.send_ping env p m seq payload).2.1 = m := by
  unfold Pinger.send_ping
  cases Pinger.encodePacket env p seq payload with
  | error e => rfl
  | ok packet =>
    dsimp only
    cases env.sendTo packet p.host with
    | none => rfl
    | some errno => rfl

theorem send_ping_trace_shape (env : Env) (p : Pinger) (m : ReplyMap) (seq : PingSequence)
    (payload : List Nat) :
    (Pinger.send_ping env p m seq payload).2.2 = [Event.encodeCall (p.ident.getD ⟨0⟩) seq] ∨
    ∃ packet, (Pinger.send_ping env p m seq payload).2.2 =
      [Event.encodeCall (p.ident.getD ⟨0⟩) seq, Event.transmit packet p.host] := by
  unfold Pinger.send_ping
  cases Pinger.encodePacket env p seq payload with
  | error e => exact Or.inl rfl
  | ok packet =>
    dsimp only
    cases env.sendTo packet p.host with
    | none => exact Or.inr ⟨packet, rfl⟩
    | some errno => exact Or.inr ⟨packet, rfl⟩

/-! The claims. -/

/-- Claim C1: if the packet transmission fails after the reply-map entry
for (host, ident, seq) was registered, ping_send removes that entry again
and returns the transmission's IO error; no registered entry for that key
survives a failed send (the map is exactly rolled back). -/
theorem claim_C1_send_failure_rollback (env : Env) (now : Nat) (p : Pinger) (m : ReplyMap)
    (seq : PingSequence) (payload : List Nat) (errno : Nat)
    (hfresh : ReplyMap.containsKey m (p.host, p.ident, seq) = false)
    (hfail : (Pinger.send_ping env p ((p.host, p.ident, seq) :: m) seq payload).1 =
      .error (.IOError errno)) :
    (Pinger.ping_send env now p m seq payload).1 = .error (.IOError errno) ∧
    ReplyMap.containsKey ((Pinger.ping_send env now p m seq payload).2.2.1)
      (p.host, p.ident, seq) = false ∧
    (Pinger.ping_send env now p m seq payload).2.2.1 = m := by
  have hm2 := send_ping_map_eq env p ((p.host, p.ident, seq) :: m) seq payload
  rcases hsp : Pinger.send_ping env p ((p.host, p.ident, seq) :: m) seq payload with ⟨res, m2, ev⟩
  rw [hsp] at hfail hm2
  simp only at hfail hm2
  subst hfail hm2
  simp only [Pinger.ping_send, ReplyMap.new_waiter, hfresh, Bool.false_eq_true, if_false, hsp]
  simp [ReplyMap.remove_cons_self m p.host p.ident seq hfresh, hfresh,
    ReplyMap.containsKey_remove_self]

/-- Witness for claim C1 at a concrete input: an environment whose socket
send fails with errno 111 makes ping_send on an empty map return that IO
error and leave the key unregistered. -/
theorem claim_C1_witness :
    (Pinger.ping_send envSendFail 5 pinger0 [] seq1 []).1 =
      .error (.IOError 111) ∧
    ReplyMap.containsKey ((Pinger.ping_send envSendFail 5 pinger0 [] seq1 []).2.2.1)
      (pinger0.host, pinger0.ident, seq1) = false ∧
    (Pinger.ping_send envSendFail 5 pinger0 [] seq1 []).2.2.1 = [] := by
  exact claim_C1_send_failure_rollback envSendFail 5 pinger0 [] seq1 [] 111 (by decide) rfl

/-- Claim C2: ping_send registers the correlation entry strictly before
the packet is transmitted: on a duplicate key the call fails with the
duplicate-request error and nothing is transmitted, and any transmit event
in the trace comes after the leading registration event. -/
theorem claim_C2_register_before_transmit (env : Env) (now : Nat) (p : Pinger) (m : ReplyMap)
    (seq : PingSequence) (payload : List Nat) :
    (ReplyMap.containsKey m (p.host, p.ident, seq) = true →
      (Pinger.ping_send env now p m seq payload).1 =
        .error (.IdenticalRequests p.host p.ident seq) ∧
      ∀ packet dst, Event.transmit packet dst ∉
        (Pinger.ping_send env now p m seq payload).2.2.2) ∧
    (∀ packet dst,
      Event.transmit packet dst ∈ (Pinger.ping_send env now p m seq payload).2.2.2 →
      ∃ rest, (Pinger.ping_send env now p m seq payload).2.2.2 =
        Event.register (p.host, p.ident, seq) :: rest ∧ Event.transmit packet dst ∈ rest) := by
  constructor
  · intro hdup
    simp [Pinger.ping_send, ReplyMap.new_waiter, hdup]
  · intro packet dst hmem
    cases hd : ReplyMap.containsKey m (p.host, p.ident, seq) with
    | true =>
      exfalso
      simp [Pinger.ping_send, ReplyMap.new_waiter, hd] at hmem
    | false =>
      rcases hsp : Pinger.send_ping env p ((p.host, p.ident, seq) :: m) seq payload
        with ⟨res, m2, ev⟩
      simp only [Pinger.ping_send, ReplyMap.new_waiter, hd, Bool.false_eq_true, if_false,
        hsp] at hmem ⊢
      cases res with
      | error e =>
        refine ⟨ev ++ [Event.deregister (p.host, p.ident, seq)], rfl, ?_⟩
        dsimp only at hmem
        rcases List.mem_cons.mp hmem with h | h
        · exact absurd h (by simp)
        · exact h
      | ok u =>
        refine ⟨ev, rfl, ?_⟩
        dsimp only at hmem
        rcases List.mem_cons.mp hmem with h | h
        · exact absurd h (by simp)
        · exact h

/-- Witness for claim C2 at a concrete input: with the key already
registered, ping_send fails with the duplicate-request error and its trace
holds no transmit event. -/
theorem claim_C2_witness :
    (Pinger.ping_send envOk 0 pinger0 [(pinger0.host, pinger0.ident, seq1)] seq1 []).1 =
      .error (.IdenticalRequests pinger0.host pinger0.ident seq1) ∧
    ∀ packet dst, Event.transmit packet dst ∉
      (Pinger.ping_send envOk 0 pinger0 [(pinger0.host, pinger0.ident, seq1)] seq1 []).2.2.2 :=
  (claim_C2_register_before_transmit envOk 0 pinger0
    [(pinger0.host, pinger0.ident, seq1)] seq1 []).1 (by decide)

/-- Claim C3: a delivered reply yields the packet and a duration equal
to the arrival timestamp minus the send timestamp when that difference is
non-negative and zero otherwise; as an integer the duration is the max of
the difference and zero, hence never negative. -/
theorem claim_C3_duration_saturating (r : Reply) (t : Nat) :
    ∃ d : Nat, Pinger.ping_recv t (some r) = .ok (r.packet, d) ∧
      (d : Int) = max ((r.timestamp : Int) - (t : Int)) 0 := by
  refine ⟨r.timestamp - t, rfl, ?_⟩
  rcases Nat.le_total t r.timestamp with h | h
  · rw [max_eq_left (by omega)]
    omega
  · rw [max_eq_right (by omega)]
    omega

/-- Claim C4: a waiter channel closed without a value makes ping_recv
return SurgeError.NetworkError, and a delivered value yields an ok result,
never an error (in particular never NetworkError). -/
theorem claim_C4_closed_channel_network_error (t : Nat) (r : Reply) :
    Pinger.ping_recv t none = .error .NetworkError ∧
    Pinger.ping_recv t (some r) = .ok (r.packet, r.timestamp - t) ∧
    ∀ e : SurgeError, Pinger.ping_recv t (some r) ≠ .error e := by
  refine ⟨rfl, rfl, fun e h => ?_⟩
  simp [Pinger.ping_recv] at h

/-- Witness for claim C4 at a concrete input: a delivered reply does not
produce the network error. -/
theorem claim_C4_witness :
    Pinger.ping_recv 3 (some { packet := IcmpPacket.V4 0, timestamp := 5 }) ≠
      .error .NetworkError :=
  (claim_C4_closed_channel_network_error 3
    { packet := IcmpPacket.V4 0, timestamp := 5 }).2.2 .NetworkError

/-- Claim C5: sequence number 0 is rejected by send and by ping with the
invalid-sequence error UnsupportedSeqNum (leaving the map untouched and
emitting no event), and every representable sequence number lies in
1..=65535. -/
theorem claim_C5_sequence_zero_rejected (env : Env) (now : Nat) (rv : Option Reply)
    (p : Pinger) (m : ReplyMap) (payload : List Nat) :
    (Pinger.ping_send_raw env now p m 0 payload).1 = .error .UnsupportedSeqNum ∧
    (Pinger.ping_raw env now rv p m 0 payload).1 = .error .UnsupportedSeqNum ∧
    (Pinger.ping_send_raw env now p m 0 payload).2.2.1 = m ∧
    (Pinger.ping_send_raw env now p m 0 payload).2.2.2 = [] ∧
    ∀ s : PingSequence, 1 ≤ s.val ∧ s.val ≤ 65535 := by
  refine ⟨?_, ?_, ?_, ?_, fun s => ⟨s.property.1, s.property.2⟩⟩ <;>
    simp [Pinger.ping_send_raw, Pinger.ping_raw, PingSequence.ofNat?]

theorem ping_send_pinger_shape (env : Env) (now : Nat) (p : Pinger) (m : ReplyMap)
    (seq : PingSequence) (payload : List Nat) :
    (Pinger.ping_send env now p m seq payload).2.1 = p ∨
    (Pinger.ping_send env now p m seq payload).2.1 = { p with last_sequence := seq.val } := by
  cases hd : ReplyMap.containsKey m (p.host, p.ident, seq) with
  | true =>
    left
    simp [Pinger.ping_send, ReplyMap.new_waiter, hd]
  | false =>
    rcases hsp : Pinger.send_ping env p ((p.host, p.ident, seq) :: m) seq payload
      with ⟨res, m2, ev⟩
    cases res with
    | error e =>
      left
      simp [Pinger.ping_send, ReplyMap.new_waiter, hd, hsp]
    | ok u =>
      right
      simp [Pinger.ping_send, ReplyMap.new_waiter, hd, hsp]

/-- Claim C6: at construction the identifier is none on the unprivileged
Linux ICMP datagram socket kind and the caller's hint otherwise; ping_send
never changes the identity fields (only last_sequence), and every encoder
invocation of send_ping uses exactly the session identifier (0 standing in
when it is unset) and the caller's sequence, so the value fixed at
construction is used for every packet. -/
theorem claim_C6_identity_rule (host : IpAddr) (hint : PingIdentifier) (st : SocketType)
    (env : Env) (now : Nat) (p : Pinger) (m : ReplyMap) (seq : PingSequence)
    (payload : List Nat) :
    (is_linux_icmp_socket st = true → (Pinger.new host hint st).ident = none) ∧
    (is_linux_icmp_socket st = false → (Pinger.new host hint st).ident = some hint) ∧
    ((Pinger.ping_send env now p m seq payload).2.1).ident = p.ident ∧
    ((Pinger.ping_send env now p m seq payload).2.1).host = p.host ∧
    ((Pinger.ping_send env now p m seq payload).2.1).socketType = p.socketType ∧
    (∀ i s, Event.encodeCall i s ∈ (Pinger.send_ping env p m seq payload).2.2 →
      i = p.ident.getD ⟨0⟩ ∧ s = seq) := by
  refine ⟨fun h => by simp [Pinger.new, h], fun h => by simp [Pinger.new, h], ?_, ?_, ?_, ?_⟩
  · rcases ping_send_pinger_shape env now p m seq payload with h | h <;> rw [h]
  · rcases ping_send_pinger_shape env now p m seq payload with h | h <;> rw [h]
  · rcases ping_send_pinger_shape env now p m seq payload with h | h <;> rw [h]
  · intro i s hmem
    rcases send_ping_trace_shape env p m seq payload with h | ⟨packet, h⟩ <;>
      rw [h] at hmem <;> simp at hmem <;> exact hmem

/-- Witness for claim C6 at concrete inputs: on the datagram kind the
constructed session identifier is none, on the raw kind it is the hint. -/
theorem claim_C6_witness :
    (Pinger.new host0 ident0 .dgram).ident = none ∧
    (Pinger.new host0 ident0 .raw).ident = some ident0 :=
  ⟨(claim_C6_identity_rule host0 ident0 .dgram envOk 0 pinger0 [] seq1 []).1 rfl,
   (claim_C6_identity_rule host0 ident0 .raw envOk 0 pinger0 [] seq1 []).2.1 rfl⟩

/-- Claim C7: on drop, a nonzero last-sent sequence leads to removal of
the reply-map entry keyed by (host, ident, last sequence) — afterwards the
key is absent, and an awaiting ping_recv whose channel consequently closes
without a value resolves to the network error; a zero last-sent sequence
removes nothing. -/
theorem claim_C7_drop_cleanup (p : Pinger) (m : ReplyMap) :
    (p.last_sequence = 0 → Pinger.dropCleanup p m = m) ∧
    (∀ h : 0 < p.last_sequence ∧ p.last_sequence ≤ 65535,
      Pinger.dropCleanup p m = ReplyMap.remove m p.host p.ident ⟨p.last_sequence, h⟩ ∧
      ReplyMap.containsKey (Pinger.dropCleanup p m)
        (p.host, p.ident, ⟨p.last_sequence, h⟩) = false) ∧
    (∀ t : Nat, Pinger.ping_recv t none = .error .NetworkError) := by
  refine ⟨?_, ?_, fun t => rfl⟩
  · intro h0
    simp [Pinger.dropCleanup, h0]
  · intro h
    have heq : Pinger.dropCleanup p m = ReplyMap.remove m p.host p.ident ⟨p.last_sequence, h⟩ := by
      unfold Pinger.dropCleanup
      rw [dif_pos h]
    refine ⟨heq, ?_⟩
    rw [heq]
    exact ReplyMap.containsKey_remove_self m p.host p.ident ⟨p.last_sequence, h⟩

/-- Witness for claim C7 at a concrete input: dropping a pinger whose
last-sent sequence is 7 removes exactly the key for sequence 7. -/
theorem claim_C7_witness :
    Pinger.dropCleanup pinger1 [(pinger1.host, pinger1.ident, ⟨7, by decide⟩)] =
      ReplyMap.remove [(pinger1.host, pinger1.ident, ⟨7, by decide⟩)]
        pinger1.host pinger1.ident ⟨7, by decide⟩ ∧
    ReplyMap.containsKey
      (Pinger.dropCleanup pinger1 [(pinger1.host, pinger1.ident, ⟨7, by decide⟩)])
      (pinger1.host, pinger1.ident, ⟨7, by decide⟩) = false :=
  (claim_C7_drop_cleanup pinger1
    [(pinger1.host, pinger1.ident, ⟨7, by decide⟩)]).2.1 (by decide)

/-- Claim C8: send_ping leaves the reply map exactly as it was and its
trace holds no register and no deregister event, while encode errors and
socket IO errors still propagate to the caller and a successful send
returns ok. -/
theorem claim_C8_send_ping_frame (env : Env) (p : Pinger) (m : ReplyMap) (seq : PingSequence)
    (payload : List Nat) :
    (Pinger.send_ping env p m seq payload).2.1 = m ∧
    (∀ k : Key, Event.register k ∉ (Pinger.send_ping env p m seq payload).2.2 ∧
      Event.deregister k ∉ (Pinger.send_ping env p m seq payload).2.2) ∧
    (∀ e, Pinger.encodePacket env p seq payload = .error e →
      (Pinger.send_ping env p m seq payload).1 = .error e) ∧
    (∀ packet, Pinger.encodePacket env p seq payload = .ok packet →
      (∀ errno, env.sendTo packet p.host = some errno →
        (Pinger.send_ping env p m seq payload).1 = .error (.IOError errno)) ∧
      (env.sendTo packet p.host = none →
        (Pinger.send_ping env p m seq payload).1 = .ok ())) := by
  refine ⟨send_ping_map_eq env p m seq payload, ?_, ?_, ?_⟩
  · intro k
    rcases send_ping_trace_shape env p m seq payload with h | ⟨packet, h⟩ <;> rw [h] <;>
      exact ⟨by simp, by simp⟩
  · intro e he
    unfold Pinger.send_ping
    rw [he]
  · intro packet hp
    unfold Pinger.send_ping
    rw [hp]
    dsimp only
    constructor
    · intro errno hs
      rw [hs]
    · intro hs
      rw [hs]

/-- Witness for claim C8 at a concrete input: with a failing socket,
send_ping surfaces the IO error with errno 111. -/
theorem claim_C8_witness :
    (Pinger.send_ping envSendFail pinger0 [] seq1 []).1 = .error (.IOError 111) :=
  ((claim_C8_send_ping_frame envSendFail pinger0 [] seq1 []).2.2.2
    { ident := ident0, seq := seq1, payload := [] } rfl).1 111 rfl

/-- Claim C9: in the CLI select loop, a firing global wait-timeout marks
the run unsuccessful and ends the loop; a per-reply error marks the run
unsuccessful and is counted as a loss (the received count does not grow);
an unsuccessful run keeps its flag through every later event and exits
with the failure code (exit status 0 exactly when the run stayed
successful). -/
theorem claim_C9_cli_failures (s : CliState) (e : LoopEvent) (err : SurgeError) :
    (s.finished = false →
      (cliStep s .timeout).success = false ∧ (cliStep s .timeout).finished = true) ∧
    (s.finished = false →
      (cliStep s (.reply (.error err))).success = false ∧
      (cliStep s (.reply (.error err))).answer.received = s.answer.received ∧
      (cliStep s (.reply (.error err))).answer.transmitted = s.answer.transmitted ∧
      (cliStep s (.reply (.error err))).remaining = s.remaining - 1) ∧
    (s.success = false → (cliStep s e).success = false) ∧
    (exitCode s = 0 ↔ s.success = true) := by
  refine ⟨?_, ?_, ?_, ?_⟩
  · intro hf
    simp [cliStep, hf]
  · intro hf
    simp only [cliStep, hf, Bool.false_eq_true, if_false, Answer.update]
    split <;> simp
  · intro hs
    cases e with
    | timeout =>
      simp only [cliStep]
      split <;> simp [hs]
    | sendData last =>
      simp only [cliStep]
      split <;> simp [hs]
    | reply res =>
      simp only [cliStep]
      split
      · exact hs
      · cases res with
        | ok v =>
          dsimp only
          split <;> simp [hs]
        | error e2 =>
          dsimp only
          split <;> simp
  · cases hsuc : s.success <;> simp [exitCode, hsuc]

/-- Witness for claim C9 at a concrete input: a timeout in a live loop
state clears the success flag and finishes the loop. -/
theorem claim_C9_witness :
    (cliStep cliState0 .timeout).success = false ∧
    (cliStep cliState0 .timeout).finished = true :=
  (claim_C9_cli_failures cliState0 .timeout SurgeError.NetworkError).1 rfl

/-- Claim C10: a successful ping_send overwrites last_sequence with the
sequence just sent, and drop removes only the entry for that last
sequence: any key whose sequence differs from the last-sent one is
registered after the drop exactly if it was registered before. -/
theorem claim_C10_drop_only_last (env : Env) (now : Nat) (p : Pinger) (m : ReplyMap)
    (seq : PingSequence) (payload : List Nat) (q : Pinger) (m2 : ReplyMap)
    (h2 : IpAddr) (i2 : Option PingIdentifier) (s2 : PingSequence) :
    (∀ t w, (Pinger.ping_send env now p m seq payload).1 = .ok (t, w) →
      ((Pinger.ping_send env now p m seq payload).2.1).last_sequence = seq.val) ∧
    (s2.val ≠ q.last_sequence →
      ReplyMap.containsKey (Pinger.dropCleanup q m2) (h2, i2, s2) =
        ReplyMap.containsKey m2 (h2, i2, s2)) := by
  constructor
  · intro t w hok
    cases hd : ReplyMap.containsKey m (p.host, p.ident, seq) with
    | true =>
      simp [Pinger.ping_send, ReplyMap.new_waiter, hd] at hok
    | false =>
      rcases hsp : Pinger.send_ping env p ((p.host, p.ident, seq) :: m) seq payload
        with ⟨res, mm, ev⟩
      cases res with
      | error e =>
        simp [Pinger.ping_send, ReplyMap.new_waiter, hd, hsp] at hok
      | ok u =>
        simp [Pinger.ping_send, ReplyMap.new_waiter, hd, hsp]
  · intro hne
    unfold Pinger.dropCleanup
    split
    · next h =>
      apply ReplyMap.containsKey_remove_other
      intro heq
      have hs2 : s2 = (⟨q.last_sequence, h⟩ : PingSequence) := by
        have := congrArg (fun k : Key => k.2.2) heq
        simpa using this
      exact hne (congrArg Subtype.val hs2)
    · rfl

/-- Witness for claim C10 at a concrete input: dropping a pinger whose
last-sent sequence is 7 leaves the registered entry for sequence 1 of the
same session in the map. -/
theorem claim_C10_witness :
    ReplyMap.containsKey
      (Pinger.dropCleanup pinger1 [(pinger1.host, pinger1.ident, seq1)])
      (pinger1.host, pinger1.ident, seq1) =
    ReplyMap.containsKey [(pinger1.host, pinger1.ident, seq1)]
      (pinger1.host, pinger1.ident, seq1) :=
  (claim_C10_drop_only_last envOk 0 pinger0 [] seq1 [] pinger1
    [(pinger1.host, pinger1.ident, seq1)] pinger1.host pinger1.ident seq1).2 (by decide)

end SurgePing
